import Mathlib

/-!
HubSpot to PandaDoc webhook server (`src/server.js`).

A shallow embedding of the synchronisation pipeline of `server.js`:
the webhook handler, `getHubSpotContact` and `createOrUpdatePandaDocContact`.

* JavaScript values are the type `JVal` (parsed JSON plus `undefined`). The body of
  a response of either remote service is an arbitrary `JVal`.
* The two remote services are a parameter `Remote`: every answer may depend on
  the whole list of remote calls issued so far, so any deterministic behaviour
  of the services is covered. `Remote` also carries the one JavaScript built-in
  that is left abstract, the numeric reading of text in a comparison with `0`.
* Every function threads the list of remote calls issued so far (`List Call`)
  and returns either a value or the thrown JavaScript exception (`Thrown`).
* `console.log`, `console.warn` and `console.error` write nothing the program
  reads back; only the evaluation of their arguments is kept. The `timestamp`
  field of the responses reads the clock and is left out.
-/

namespace HubspotPandadocSync

/-! ## JavaScript values -/

/-- JavaScript values that reach the server: parsed JSON and `undefined`.
Numbers are kept as integers: the program only compares them with zero. -/
inductive JVal where
  | undefined
  | null
  | bool (b : Bool)
  | num (n : Int)
  | str (s : String)
  | arr (elems : List JVal)
  | obj (fields : List (String × JVal))

/-- An object literal: its own properties in insertion order. -/
abbrev Obj := List (String × JVal)

/-- JavaScript `ToBoolean`: `undefined`, `null`, `false`, `0` and `''` are falsy. -/
def JVal.truthy : JVal → Bool
  | .undefined => false
  | .null => false
  | .bool b => b
  | .num n => n != 0
  | .str s => s != ""
  | .arr _ => true
  | .obj _ => true

/-- The operator `a || b`. -/
def JVal.or (a b : JVal) : JVal :=
  if a.truthy then a else b

/-- Property read `v.k` on a value that is neither `undefined` nor `null`, for
the plain data keys this program reads (none of them lives on a prototype). -/
def JVal.get (v : JVal) (k : String) : JVal :=
  match v with
  | .obj fields => (fields.lookup k).getD .undefined
  | _ => .undefined

/-- Optional chaining `v?.k`. -/
def JVal.optGet (v : JVal) (k : String) : JVal :=
  match v with
  | .undefined => .undefined
  | .null => .undefined
  | w => w.get k

/-- Whether the value is `undefined` or `null`. -/
def JVal.isNullish : JVal → Bool
  | .undefined => true
  | .null => true
  | _ => false

mutual
/-- Whether converting the value to a string, as a template literal does, throws a
`TypeError`. Parsed JSON holds no function, so an object with an own `toString` key has
no usable conversion; any other object prints through `Object.prototype.toString`; an
array joins the conversions of its elements, skipping `undefined` and `null`. -/
def toStringThrows : JVal → Bool
  | .arr elems => anyToStringThrows elems
  | .obj fields => (fields.lookup "toString").isSome
  | _ => false
/-- Whether the conversion of some element of the list throws. -/
def anyToStringThrows : List JVal → Bool
  | [] => false
  | x :: xs => toStringThrows x || anyToStringThrows xs
end

/-- The number of UTF-16 code units of a string. -/
def utf16Length (s : String) : Nat :=
  (s.data.map (fun c => if c.toNat < 65536 then 1 else 2)).sum

/-- Property read `v.length` on a value that is neither `undefined` nor `null`. -/
def JVal.lengthOf : JVal → JVal
  | .str s => .num (utf16Length s)
  | .arr elems => .num elems.length
  | .obj fields => (fields.lookup "length").getD .undefined
  | _ => .undefined

/-- Element read `v[0]` on a value that is neither `undefined` nor `null`. On a string
it is a one-unit string (kept here as the first character), which has no `id`. -/
def JVal.first : JVal → JVal
  | .str s =>
    match s.data with
    | c :: _ => .str (String.singleton c)
    | [] => .undefined
  | .arr (x :: _) => x
  | .arr [] => .undefined
  | .obj fields => (fields.lookup "0").getD .undefined
  | _ => .undefined

/-- Property write `v.k = x` on an object: the key is replaced, or added last. The
program writes only to a contact that has a truthy `associations.companies.results`,
which is an object; the other cases are not reached. -/
def JVal.set (v : JVal) (k : String) (x : JVal) : JVal :=
  match v with
  | .obj fields =>
    if (fields.lookup k).isSome then
      .obj (fields.map (fun kv => if kv.1 == k then (k, x) else kv))
    else
      .obj (fields ++ [(k, x)])
  | w => w

/-- Strict equality `v === s` against a string literal. -/
def JVal.isStr (v : JVal) (s : String) : Bool :=
  match v with
  | .str t => t == s
  | _ => false

/-- Whether `needle` occurs as a contiguous run inside `hay`. -/
def includesChars (needle : List Char) : List Char → Bool
  | [] => needle.isEmpty
  | c :: cs => needle.isPrefixOf (c :: cs) || includesChars needle cs

/-- The method `String.prototype.includes`. -/
def stringIncludes (s needle : String) : Bool :=
  includesChars needle.data s.data

/-! ## Data model -/

/-- The body of the response to a contact request (`contactResponse.data`), which
`getHubSpotContact` returns and `createOrUpdatePandaDocContact` receives: any value. A
well-formed one is an object with the keys `properties`, `associations` and, once
attached, `associatedCompany`. -/
abbrev SourceContact := JVal

/-- An inbound webhook event. -/
structure Event where
  subscriptionType : JVal
  objectId : String

/-- The parsed request body `req.body`: one event object or an array of them. -/
inductive Body where
  | single (event : Event)
  | array (events : List Event)

/-- The `response` member of an axios error. -/
structure ErrorResponse where
  status : Nat
  data : JVal

/-- The error an axios request rejects with; `response` is absent on a network error. -/
structure AxiosError where
  response : Option ErrorResponse
  message : String

/-- What a JavaScript `throw` (or a rejected promise) carries in this program. -/
inductive Thrown where
  | axios (e : AxiosError)
  | typeError (message : String)
  | referenceError (message : String)

/-- The member `error.response` (absent on errors that are not axios errors). -/
def Thrown.response : Thrown → Option ErrorResponse
  | .axios e => e.response
  | _ => none

/-- The member `error.message`. -/
def Thrown.message : Thrown → String
  | .axios e => e.message
  | .typeError m => m
  | .referenceError m => m

/-- The throwing property read `v.k`: a `TypeError` on `undefined` and `null`. Both
callers catch it and never read its message. -/
def readProperty (v : JVal) (k : String) : Except Thrown JVal :=
  if v.isNullish then .error (.typeError ("Cannot read properties of nullish: " ++ k))
  else .ok (v.get k)

/-- The evaluation of a template literal that interpolates `v`. -/
def interpolate (v : JVal) : Except Thrown Unit :=
  if toStringThrows v then .error (.typeError "Cannot convert object to primitive value")
  else .ok ()

/-- A remote call issued through axios. A company request carries the value `companyId`
that is interpolated into its URL. -/
inductive Call where
  | getContact (contactId : String)
  | getCompany (companyId : JVal)
  | postContact (body : Obj)

/-- The two remote services; each answer may depend on every call issued before.
`positiveAsNumber v` stands for `Number(v) > 0` on a string `v`, or on an array `v` whose
conversion to a string does not throw: the numeric reading of text by the JavaScript
runtime, left abstract. -/
structure Remote where
  getContact : List Call → String → Except AxiosError SourceContact
  getCompany : List Call → JVal → Except AxiosError JVal
  postContact : List Call → Obj → Except AxiosError JVal
  positiveAsNumber : JVal → Bool

/-- The result of running a piece of the server from a given call history:
the value or the exception, and the call history afterwards. -/
abbrev Run (α : Type) := Except Thrown α × List Call

/-- The statement `try { body } catch (error) { handler }`. -/
def tryCatch {α : Type} (body : Run α) (handler : Thrown → List Call → Run α) : Run α :=
  match body with
  | (.ok v, tr) => (.ok v, tr)
  | (.error e, tr) => handler e tr

/-! ## `getHubSpotContact` -/

/-- The comparison `v > 0`: `undefined` reads as `NaN`, `null` as `0`, a boolean as `0`
or `1`; a string is read as a number; an array is first joined to a string; an object
prints as `[object Object]`, which reads as `NaN`, unless its conversion throws. -/
def greaterThanZero (env : Remote) : JVal → Except Thrown Bool
  | .undefined => .ok false
  | .null => .ok false
  | .bool b => .ok b
  | .num n => .ok (decide (0 < n))
  | .str s => .ok (env.positiveAsNumber (.str s))
  | .arr elems =>
    if toStringThrows (.arr elems) then
      .error (.typeError "Cannot convert object to primitive value")
    else .ok (env.positiveAsNumber (.arr elems))
  | .obj fields =>
    if toStringThrows (.obj fields) then
      .error (.typeError "Cannot convert object to primitive value")
    else .ok false

/-- The expression `contact.associations?.companies?.results`, for a `contact` that is
neither `undefined` nor `null`. -/
def companyAssociationsOf (contact : JVal) : JVal :=
  ((contact.get "associations").optGet "companies").optGet "results"

/-- The part of the `try` block between the two requests: the read of
`companyAssociations`, the guard `companyAssociations && companyAssociations.length > 0`,
the read `companyAssociations[0].id` and the log line that interpolates `companyId`.
The result is the `companyId` to request, or `none` when the guard fails. -/
def firstCompanyId (env : Remote) (contact : JVal) : Except Thrown (Option JVal) :=
  match readProperty contact "associations" with
  | .error t => .error t
  | .ok _ =>
    let companyAssociations := companyAssociationsOf contact
    if !companyAssociations.truthy then .ok none
    else
      match greaterThanZero env companyAssociations.lengthOf with
      | .error t => .error t
      | .ok false => .ok none
      | .ok true =>
        match readProperty companyAssociations.first "id" with
        | .error t => .error t
        | .ok companyId =>
          match interpolate companyId with
          | .error t => .error t
          | .ok _ => .ok (some companyId)

/-- The `try` block of `getHubSpotContact`. -/
def getHubSpotContactTry (env : Remote) (contactId : String) (tr : List Call) :
    Run JVal :=
  match env.getContact tr contactId with
  | .error e => (.error (.axios e), tr ++ [.getContact contactId])
  | .ok contact =>
    let tr1 := tr ++ [.getContact contactId]
    match firstCompanyId env contact with
    | .error t => (.error t, tr1)
    | .ok none => (.ok contact, tr1)
    | .ok (some companyId) =>
      match env.getCompany tr1 companyId with
      | .error e => (.error (.axios e), tr1 ++ [.getCompany companyId])
      | .ok company =>
        (.ok (contact.set "associatedCompany" company), tr1 ++ [.getCompany companyId])

/-- The function `getHubSpotContact`: the `catch` block logs and returns `null`. -/
def getHubSpotContact (env : Remote) (contactId : String) (tr : List Call) :
    Run JVal :=
  tryCatch (getHubSpotContactTry env contactId tr) (fun _error tr1 => (.ok .null, tr1))

/-! ## `createOrUpdatePandaDocContact` -/

/-- The binding `const properties = hubspotContact.properties || {}`. -/
def contactProperties (hubspotContact : SourceContact) : JVal :=
  (hubspotContact.get "properties").or (.obj [])

/-- The binding `const companyData = hubspotContact.associatedCompany?.properties || {}`. -/
def companyData (hubspotContact : SourceContact) : JVal :=
  ((hubspotContact.get "associatedCompany").optGet "properties").or (.obj [])

/-- The object literal `pandadocContact`, before empty fields are removed. -/
def pandadocContactLiteral (hubspotContact : SourceContact) : Obj :=
  let properties := contactProperties hubspotContact
  let companyData := companyData hubspotContact
  [ ("email", properties.get "email"),
    ("first_name", (properties.get "firstname").or (.str "")),
    ("last_name", (properties.get "lastname").or (.str "")),
    ("company", ((companyData.get "name").or (properties.get "company")).or (.str "")),
    ("job_title", (properties.get "jobtitle").or (.str "")),
    ("phone", ((properties.get "phone").or (companyData.get "phone")).or (.str "")),
    ("state", ((properties.get "state").or (companyData.get "state")).or (.str "")),
    ("street_address", ((properties.get "address").or (companyData.get "address")).or (.str "")),
    ("city", ((properties.get "city").or (companyData.get "city")).or (.str "")),
    ("postal_code", ((properties.get "zip").or (companyData.get "zip")).or (.str "")),
    ("country", ((properties.get "country").or (companyData.get "country")).or (.str "")) ]

/-- The loop `Object.keys(pandadocContact).forEach(key => ...)` deleting every falsy field. -/
def removeEmptyFields (pandadocContact : Obj) : Obj :=
  pandadocContact.filter (fun kv => kv.2.truthy)

/-- The record `pandadocContact` after the empty fields are removed. -/
def pandadocContactOf (hubspotContact : SourceContact) : Obj :=
  removeEmptyFields (pandadocContactLiteral hubspotContact)

/-- Property read `o.k` on an object literal. -/
def Obj.get (o : Obj) (k : String) : JVal :=
  (o.lookup k).getD .undefined

/-- The two log lines before the request: the template literal with
`pandadocContact.email` and, when `companyData.name` is truthy, the one with
`companyData.name`. -/
def logBeforeRequest (pandadocContact : Obj) (companyData : JVal) : Except Thrown Unit :=
  match interpolate (Obj.get pandadocContact "email") with
  | .error t => .error t
  | .ok _ =>
    if (companyData.get "name").truthy then interpolate (companyData.get "name")
    else .ok ()

/-- The `try` block of `createOrUpdatePandaDocContact`. The first read,
`hubspotContact.properties`, throws on `undefined` and `null`. -/
def createOrUpdatePandaDocContactTry (env : Remote) (hubspotContact : SourceContact)
    (tr : List Call) : Run JVal :=
  match readProperty hubspotContact "properties" with
  | .error t => (.error t, tr)
  | .ok _ =>
    let pandadocContact := pandadocContactOf hubspotContact
    if !(Obj.get pandadocContact "email").truthy then
      (.ok .undefined, tr)
    else
      match logBeforeRequest pandadocContact (companyData hubspotContact) with
      | .error t => (.error t, tr)
      | .ok _ =>
        match env.postContact tr pandadocContact with
        | .error e => (.error (.axios e), tr ++ [.postContact pandadocContact])
        | .ok data => (.ok data, tr ++ [.postContact pandadocContact])

/-- The call `detail?.includes('already exists')` of the `catch` block: a string is
searched, an array is tested for an element equal to the marker, `undefined` and `null`
short-circuit, and any other value has no callable `includes`. -/
def detailIncludesAlreadyExists (detail : JVal) : Except Thrown JVal :=
  match detail with
  | .undefined => .ok .undefined
  | .null => .ok .undefined
  | .str s => .ok (.bool (stringIncludes s "already exists"))
  | .arr elems => .ok (.bool (elems.any (fun x => x.isStr "already exists")))
  | _ => .error (.typeError "error.response?.data?.detail?.includes is not a function")

/-- The expression `error.response?.data?.detail`. -/
def errorDetail (error : Thrown) : JVal :=
  match error.response with
  | none => .undefined
  | some r => r.data.optGet "detail"

/-- The test `error.response?.status === 400`. -/
def errorStatusIs400 (error : Thrown) : Bool :=
  match error.response with
  | none => false
  | some r => r.status == 400

/-- The `catch` block of `createOrUpdatePandaDocContact`. The name `pandadocContact`
is declared with `const` inside the `try` block and is not in scope here, so
evaluating the template literal of the first branch throws a `ReferenceError`. -/
def createOrUpdatePandaDocContactCatch (error : Thrown) (tr : List Call) : Run JVal :=
  if errorStatusIs400 error then
    match detailIncludesAlreadyExists (errorDetail error) with
    | .error e => (.error e, tr)
    | .ok included =>
      if included.truthy then
        (.error (.referenceError "pandadocContact is not defined"), tr)
      else
        (.ok .undefined, tr)
  else
    (.ok .undefined, tr)

/-- The function `createOrUpdatePandaDocContact`. -/
def createOrUpdatePandaDocContact (env : Remote) (hubspotContact : SourceContact)
    (tr : List Call) : Run JVal :=
  tryCatch (createOrUpdatePandaDocContactTry env hubspotContact tr)
    createOrUpdatePandaDocContactCatch

/-! ## The handler of `POST /hubspot-webhook` -/

/-- The HTTP response of the webhook handler: `res.status(200).json(...)` or
`res.status(500).json(...)`. -/
inductive HttpResponse where
  | ok200 (message : String) (processedEvents : Nat)
  | error500 (error : String) (message : String)

/-- The HTTP status code of a response. -/
def HttpResponse.status : HttpResponse → Nat
  | .ok200 _ _ => 200
  | .error500 _ _ => 500

/-- The normalisation `Array.isArray(req.body) ? req.body : [req.body]`. -/
def normaliseEvents : Body → List Event
  | .array events => events
  | .single event => [event]

/-- The filter of the loop: the subscription type is one of the two handled. -/
def isContactEvent (event : Event) : Bool :=
  event.subscriptionType.isStr "contact.creation" ||
    event.subscriptionType.isStr "contact.propertyChange"

/-- The body of the `for` loop on one event, returning the new `processedCount`. -/
def processEvent (env : Remote) (event : Event) (processedCount : Nat) (tr : List Call) :
    Run Nat :=
  if isContactEvent event then
    match getHubSpotContact env event.objectId tr with
    | (.error e, tr1) => (.error e, tr1)
    | (.ok contactData, tr1) =>
      if contactData.truthy then
        match createOrUpdatePandaDocContact env contactData tr1 with
        | (.error e, tr2) => (.error e, tr2)
        | (.ok _, tr2) => (.ok (processedCount + 1), tr2)
      else
        (.ok processedCount, tr1)
  else
    (.ok processedCount, tr)

/-- The loop `for (const event of events)`; an exception leaves the loop. -/
def processEvents (env : Remote) : List Event → Nat → List Call → Run Nat
  | [], processedCount, tr => (.ok processedCount, tr)
  | event :: rest, processedCount, tr =>
    match processEvent env event processedCount tr with
    | (.error e, tr1) => (.error e, tr1)
    | (.ok processedCount1, tr1) => processEvents env rest processedCount1 tr1

/-- The handler of `POST /hubspot-webhook`: the response sent and the calls issued. -/
def hubspotWebhook (env : Remote) (body : Body) (tr : List Call) : HttpResponse × List Call :=
  match processEvents env (normaliseEvents body) 0 tr with
  | (.ok processedCount, tr1) => (.ok200 "Webhook processed successfully" processedCount, tr1)
  | (.error error, tr1) => (.error500 "Internal server error" error.message, tr1)

/-! ## Vocabulary of the specification -/

/-- The eleven fields of a destination contact. -/
def destinationFields : List String :=
  ["email", "first_name", "last_name", "company", "job_title", "phone", "state",
    "street_address", "city", "postal_code", "country"]

/-- The six pairs (destination field, source property) that fall back from the
contact to its company. -/
def fallbackPairs : List (String × String) :=
  [("phone", "phone"), ("state", "state"), ("street_address", "address"), ("city", "city"),
    ("postal_code", "zip"), ("country", "country")]

/-- The calls of a history that are destination create requests. -/
def postCalls (tr : List Call) : List Obj :=
  tr.filterMap (fun c => match c with
    | .postContact body => some body
    | _ => none)

/-- The contact identifiers of the contact-fetch calls of a history, in order. -/
def fetchedContactIds (tr : List Call) : List String :=
  tr.filterMap (fun c => match c with
    | .getContact contactId => some contactId
    | _ => none)

/-- The call history when the event at position `i` of the batch is reached: the
history after the loop has run over the events before it. -/
def historyAt (env : Remote) (events : List Event) (tr : List Call) (i : Nat) : List Call :=
  (processEvents env (events.take i) 0 tr).2

/-- The event is of a handled type and `getHubSpotContact`, called for it from the
history `tr`, returns a contact: a truthy value, so not `null`. -/
def fetchReturnsContact (env : Remote) (event : Event) (tr : List Call) : Bool :=
  isContactEvent event &&
    match (getHubSpotContact env event.objectId tr).1 with
    | .ok contactData => contactData.truthy
    | .error _ => false

/-! ## Concrete scenarios -/

/-- The contact `{properties: {email: "a@b.com", firstname: "A"}}` without company. -/
def contactA : SourceContact :=
  .obj [("properties", .obj [("email", .str "a@b.com"), ("firstname", .str "A")])]

/-- A contact with an email, its own phone, and an associated company with a phone. -/
def contactWithPhones (contactPhone companyPhone : String) : SourceContact :=
  .obj [("properties", .obj [("email", .str "a@b.com"), ("phone", .str contactPhone)]),
    ("associations", .obj [("companies", .obj [("results", .arr [.obj [("id", .str "9")]])])]),
    ("associatedCompany", .obj [("properties", .obj [("phone", .str companyPhone)])])]

/-- A contact whose own company property differs from its associated company's name. -/
def contactTwoCompanies : SourceContact :=
  .obj [("properties", .obj [("email", .str "a@b.com"), ("company", .str "Old Name")]),
    ("associations", .obj [("companies", .obj [("results", .arr [.obj [("id", .str "9")]])])]),
    ("associatedCompany", .obj [("properties", .obj [("name", .str "Acme Inc")])])]

/-- An axios error for a response of the given status and body. -/
def httpError (status : Nat) (data : JVal) : AxiosError :=
  { response := some { status := status, data := data },
    message := "Request failed with status code " ++ toString status }

/-- Remote services where every contact fetch returns `contactA` and every create
request is answered as given. -/
def envWithPost (answer : Except AxiosError JVal) : Remote :=
  { getContact := fun _ _ => .ok contactA,
    getCompany := fun _ _ => .ok .undefined,
    postContact := fun _ _ => answer,
    positiveAsNumber := fun _ => false }

/-- The destination answers 400 with `{detail: "Contact already exists"}`. -/
def envDuplicate : Remote :=
  envWithPost (.error (httpError 400 (.obj [("detail", .str "Contact already exists")])))

/-- The destination answers 400 with a validation error whose `detail` is an object. -/
def envValidation : Remote :=
  envWithPost (.error (httpError 400 (.obj [("type", .str "validation_error"),
    ("detail", .obj [("email", .arr [.str "Enter a valid email address."])])])))

/-- The destination answers 400 with a numeric `detail`. -/
def envNumericDetail : Remote :=
  envWithPost (.error (httpError 400 (.obj [("detail", .num 5)])))

/-- The destination accepts every create request. -/
def envAccept : Remote :=
  envWithPost (.ok (.obj [("id", .str "c1")]))

/-- A contact without email property. -/
def contactNoEmail : SourceContact :=
  .obj [("properties", .obj [("firstname", .str "A")])]

/-- Every contact fetch returns a contact without email. -/
def envNoEmail : Remote :=
  { getContact := fun _ _ => .ok contactNoEmail,
    getCompany := fun _ _ => .ok .undefined,
    postContact := fun _ _ => .ok .undefined,
    positiveAsNumber := fun _ => false }

/-- The destination answers every create request with status 500. -/
def envServerError : Remote :=
  envWithPost (.error (httpError 500 (.str "Internal Server Error")))

/-- The source CRM answers every contact request with status 404. -/
def envNotFound : Remote :=
  { getContact := fun _ _ => .error (httpError 404 (.obj [("message", .str "not found")])),
    getCompany := fun _ _ => .ok .undefined,
    postContact := fun _ _ => .ok .undefined,
    positiveAsNumber := fun _ => false }

/-- Remote services that accept every request and answer every contact request with
the given body. -/
def envWithContact (body : JVal) : Remote :=
  { getContact := fun _ _ => .ok body,
    getCompany := fun _ _ => .ok (.obj [("properties", .obj [("name", .str "Acme Inc")])]),
    postContact := fun _ _ => .ok (.obj [("id", .str "c1")]),
    positiveAsNumber := fun _ => false }

/-- A contact whose email is the object `{toString: 1}`, which has no conversion to a
string. -/
def contactObjectEmail : SourceContact :=
  .obj [("properties", .obj [("email", .obj [("toString", .num 1)])])]

/-- A contact whose list of company associations starts with `null`. -/
def contactNullAssociation : SourceContact :=
  .obj [("properties", .obj [("email", .str "a@b.com")]),
    ("associations", .obj [("companies", .obj [("results", .arr [.null])])])]

/-- A contact associated with company 9. -/
def contactOfCompany9 : SourceContact :=
  .obj [("properties", .obj [("email", .str "a@b.com")]),
    ("associations", .obj [("companies", .obj [("results", .arr [.obj [("id", .str "9")]])])])]

/-- The event `{subscriptionType: "contact.creation", objectId: "123"}`. -/
def eventCreation : Event :=
  { subscriptionType := .str "contact.creation", objectId := "123" }

/-- An event of a type the server does not handle. -/
def eventOther : Event :=
  { subscriptionType := .str "deal.creation", objectId := "456" }

/-- A second contact event, for contact 789. -/
def eventChange : Event :=
  { subscriptionType := .str "contact.propertyChange", objectId := "789" }

/-! ## Destination errors (C1, C2, C3) -/

/-- C1 (the code departs from the claim): with a fetched contact that has an email,
when the create request fails with status 400 and detail "Contact already exists",
`createOrUpdatePandaDocContact` does not complete normally: its `catch` block reads
`pandadocContact`, which is out of scope there, and the function rejects with a
`ReferenceError` after issuing the create request. -/
theorem C1_duplicate_conflict_rejects :
    createOrUpdatePandaDocContact envDuplicate contactA [] =
      (.error (.referenceError "pandadocContact is not defined"),
        [.postContact [("email", .str "a@b.com"), ("first_name", .str "A")]]) := by
  rfl

/-- C2 (the code departs from the claim): for the batch of two contact events, when the
destination answers the first create request with the duplicate conflict, the handler
responds 500 and the second event is never visited (no fetch for contact 789). -/
theorem C2_duplicate_conflict_fails_batch :
    hubspotWebhook envDuplicate (.array [eventCreation, eventChange]) [] =
      (.error500 "Internal server error" "pandadocContact is not defined",
        [.getContact "123",
          .postContact [("email", .str "a@b.com"), ("first_name", .str "A")]]) ∧
    (hubspotWebhook envDuplicate (.array [eventCreation, eventChange]) []).1.status = 500 := by
  exact ⟨rfl, rfl⟩

/-- C3 (the code departs from the claim): with a fetched contact that has an email, when
the create request fails with status 400 and a `detail` that is an object, or a number,
neither being a duplicate conflict, `createOrUpdatePandaDocContact` rejects with a
`TypeError` raised by `detail?.includes(...)` inside the `catch` block. -/
theorem C3_non_string_detail_rejects :
    createOrUpdatePandaDocContact envValidation contactA [] =
      (.error (.typeError "error.response?.data?.detail?.includes is not a function"),
        [.postContact [("email", .str "a@b.com"), ("first_name", .str "A")]]) ∧
    createOrUpdatePandaDocContact envNumericDetail contactA [] =
      (.error (.typeError "error.response?.data?.detail?.includes is not a function"),
        [.postContact [("email", .str "a@b.com"), ("first_name", .str "A")]]) := by
  exact ⟨rfl, rfl⟩



/-! ## The field mapper (C4, C5, C6, C10) -/

theorem lookup_removeEmptyFields_of_not_mem (k : String) :
    ∀ l : Obj, k ∉ l.map Prod.fst → (removeEmptyFields l).lookup k = none := by
  intro l
  induction l with
  | nil => intro _; rfl
  | cons kv t ih =>
    obtain ⟨k1, v⟩ := kv
    intro h
    simp only [List.map_cons, List.mem_cons, not_or] at h
    have hk : (k == k1) = false := by simpa using h.1
    have ih1 := ih h.2
    unfold removeEmptyFields at ih1 ⊢
    by_cases hv : v.truthy = true
    · simp [List.filter_cons, hv, List.lookup_cons, hk, ih1]
    · simp [List.filter_cons, hv, ih1]

theorem lookup_removeEmptyFields (k : String) :
    ∀ l : Obj, (l.map Prod.fst).Nodup →
      (removeEmptyFields l).lookup k =
        (l.lookup k).bind (fun v => if v.truthy then some v else none) := by
  intro l
  induction l with
  | nil => intro _; rfl
  | cons kv t ih =>
    obtain ⟨k1, v⟩ := kv
    intro h
    simp only [List.map_cons, List.nodup_cons] at h
    have ih1 := ih h.2
    by_cases hk : k = k1
    · subst hk
      have hnone := lookup_removeEmptyFields_of_not_mem k t h.1
      unfold removeEmptyFields at hnone ⊢
      by_cases hv : v.truthy = true
      · simp [List.filter_cons, hv, List.lookup_cons]
      · simp [List.filter_cons, hv, List.lookup_cons, hnone]
    · have hk1 : (k == k1) = false := by simpa using hk
      unfold removeEmptyFields at ih1 ⊢
      by_cases hv : v.truthy = true
      · simp [List.filter_cons, hv, List.lookup_cons, hk1, ih1]
      · simp [List.filter_cons, hv, List.lookup_cons, hk1, ih1]

theorem keys_pandadocContactLiteral (c : SourceContact) :
    (pandadocContactLiteral c).map Prod.fst = destinationFields := rfl

theorem nodup_destinationFields : destinationFields.Nodup := by
  decide

theorem lookup_pandadocContactOf (c : SourceContact) (k : String) :
    (pandadocContactOf c).lookup k =
      ((pandadocContactLiteral c).lookup k).bind (fun v => if v.truthy then some v else none) := by
  unfold pandadocContactOf
  apply lookup_removeEmptyFields
  rw [keys_pandadocContactLiteral]
  exact nodup_destinationFields

theorem truthy_str_empty : (JVal.str "").truthy = false := by
  decide

/-- The value of `(a || b) || ''` after the falsy fields are dropped. -/
theorem fallback_chain (a b : JVal) :
    (some ((a.or b).or (.str ""))).bind (fun v => if v.truthy then some v else none) =
      if a.truthy then some a else if b.truthy then some b else none := by
  by_cases ha : a.truthy = true
  · simp [JVal.or, ha]
  · by_cases hb : b.truthy = true
    · simp [JVal.or, ha, hb]
    · simp [JVal.or, ha, hb, truthy_str_empty]


/-- The email the upserter tests: `pandadocContact.email` after pruning is truthy exactly
when `properties.email` is. -/
theorem email_of_pandadocContactOf (c : SourceContact) :
    (Obj.get (pandadocContactOf c) "email").truthy = ((contactProperties c).get "email").truthy := by
  unfold Obj.get
  rw [lookup_pandadocContactOf]
  have h : (pandadocContactLiteral c).lookup "email" = some ((contactProperties c).get "email") := rfl
  rw [h]
  by_cases he : ((contactProperties c).get "email").truthy = true
  · simp [he]
  · have hu : JVal.undefined.truthy = false := rfl
    simp [he, hu]

/-- The `catch` block of the upserter swallows a `TypeError` raised in the `try` block. -/
theorem catch_typeError (m : String) (tr : List Call) :
    createOrUpdatePandaDocContactCatch (.typeError m) tr = (.ok .undefined, tr) := rfl

theorem email_falsy_of_isNullish (c : SourceContact) (h : c.isNullish = true) :
    ((contactProperties c).get "email").truthy = false := by
  cases c <;> first | rfl | simp [JVal.isNullish] at h

theorem email_of_pandadocContactOf_eq (c : SourceContact)
    (h : ((contactProperties c).get "email").truthy = true) :
    Obj.get (pandadocContactOf c) "email" = (contactProperties c).get "email" := by
  unfold Obj.get
  rw [lookup_pandadocContactOf]
  have hl : (pandadocContactLiteral c).lookup "email" = some ((contactProperties c).get "email") :=
    rfl
  rw [hl]
  simp [h]

/-- The calls `createOrUpdatePandaDocContact` adds to the history: one create request
when the email is truthy and the two log lines before the request do not throw, none
otherwise. -/
theorem history_createOrUpdatePandaDocContact (env : Remote) (c : SourceContact)
    (tr : List Call) :
    (createOrUpdatePandaDocContact env c tr).2 =
      tr ++ (if ((contactProperties c).get "email").truthy = true ∧
          toStringThrows ((contactProperties c).get "email") = false ∧
          (((companyData c).get "name").truthy = true →
            toStringThrows ((companyData c).get "name") = false) then
        [Call.postContact (pandadocContactOf c)] else []) := by
  unfold createOrUpdatePandaDocContact createOrUpdatePandaDocContactTry readProperty
  by_cases hn : c.isNullish = true
  · have he := email_falsy_of_isNullish c hn
    simp [hn, he, tryCatch, catch_typeError]
  · simp only [hn, Bool.false_eq_true, if_false]
    by_cases he : ((contactProperties c).get "email").truthy = true
    · simp only [email_of_pandadocContactOf, he, Bool.not_true, Bool.false_eq_true, if_false,
        true_and]
      unfold logBeforeRequest interpolate
      rw [email_of_pandadocContactOf_eq c he]
      by_cases h1 : toStringThrows ((contactProperties c).get "email") = true
      · simp [h1, tryCatch, catch_typeError]
      · simp only [h1, Bool.false_eq_true, if_false]
        have h1f : toStringThrows ((contactProperties c).get "email") = false := by
          simpa using h1
        by_cases h2 : ((companyData c).get "name").truthy = true
        · by_cases h3 : toStringThrows ((companyData c).get "name") = true
          · simp [h1f, h2, h3, tryCatch, catch_typeError]
          · have h3f : toStringThrows ((companyData c).get "name") = false := by
              simpa using h3
            simp only [h2, h3f, if_true, Bool.false_eq_true, if_false, h1f, true_and,
              forall_const]
            cases hp : env.postContact tr (pandadocContactOf c) with
            | ok data => rfl
            | error e =>
              simp only [tryCatch, createOrUpdatePandaDocContactCatch]
              split
              · split
                · rfl
                · split <;> rfl
              · rfl
        · simp only [h2, Bool.false_eq_true, if_false, h1f, true_and, false_implies, if_true]
          cases hp : env.postContact tr (pandadocContactOf c) with
          | ok data => rfl
          | error e =>
            simp only [tryCatch, createOrUpdatePandaDocContactCatch]
            split
            · split
              · rfl
              · split <;> rfl
            · rfl
    · simp [email_of_pandadocContactOf, he, tryCatch]

/-- C4 (the claim as stated fails): the contact whose `properties.email` is the object
`{toString: 1}` has a non-empty (truthy) email, yet `createOrUpdatePandaDocContact`
issues no create request: the log line that interpolates the email throws a `TypeError`
inside the `try` block, and the `catch` block swallows it. -/
theorem C4_object_email_not_sent :
    ((contactProperties contactObjectEmail).get "email").truthy = true ∧
    createOrUpdatePandaDocContact envAccept contactObjectEmail [] = (.ok .undefined, []) := by
  exact ⟨rfl, rfl⟩

/-- C4 (amended): `createOrUpdatePandaDocContact` issues exactly one destination create
request, whose body is the pruned mapped record, when `properties.email` is non-empty
(truthy) and the conversions to a string made by the two log lines before the request
do not throw, that of the email and, when the company name is non-empty, that of the
company name; neither throws on a string. It issues no request at all when
`properties.email` is missing or empty (falsy), whatever the company holds, nor when one
of these conversions throws. For the contact
`{properties: {email: "a@b.com", firstname: "A"}}` the one request has body
`{email: "a@b.com", first_name: "A"}`. -/
theorem C4_request_iff_email (env : Remote) (c : SourceContact) (tr : List Call) :
    (((contactProperties c).get "email").truthy = true →
      toStringThrows ((contactProperties c).get "email") = false →
      (((companyData c).get "name").truthy = true →
        toStringThrows ((companyData c).get "name") = false) →
      (createOrUpdatePandaDocContact env c tr).2 = tr ++ [.postContact (pandadocContactOf c)]) ∧
    (((contactProperties c).get "email").truthy = false →
      (createOrUpdatePandaDocContact env c tr).2 = tr) ∧
    ((toStringThrows ((contactProperties c).get "email") = true ∨
        (((companyData c).get "name").truthy = true ∧
          toStringThrows ((companyData c).get "name") = true)) →
      (createOrUpdatePandaDocContact env c tr).2 = tr) ∧
    (∀ s : String, toStringThrows (.str s) = false) ∧
    (createOrUpdatePandaDocContact env contactA []).2 =
      [.postContact [("email", .str "a@b.com"), ("first_name", .str "A")]] := by
  refine ⟨?_, ?_, ?_, fun _ => rfl, ?_⟩
  · intro h1 h2 h3
    rw [history_createOrUpdatePandaDocContact, if_pos ⟨h1, h2, h3⟩]
  · intro h
    rw [history_createOrUpdatePandaDocContact]
    simp [h]
  · intro h
    rw [history_createOrUpdatePandaDocContact]
    rcases h with h | ⟨h, h1⟩
    · simp [h]
    · simp [h, h1]
  · rw [history_createOrUpdatePandaDocContact]
    rfl

/-- C4 at the contact of the end-to-end scenario, with a destination that accepts. -/
theorem C4_request_iff_email_witness :
    ((contactProperties contactA).get "email").truthy = true ∧
    (createOrUpdatePandaDocContact envAccept contactA []).2 =
      [] ++ [.postContact (pandadocContactOf contactA)] :=
  ⟨rfl, (C4_request_iff_email envAccept contactA []).1 rfl rfl (fun _ => rfl)⟩

/-- C5: for each of the six pairs (phone / phone, state / state, street_address / address,
city / city, postal_code / zip, country / country) the mapped record holds the contact's
own property when that is non-empty (truthy), otherwise the associated company's property
when that is non-empty, and otherwise lacks the field; this holds for every contact, with
an email or not. Contact phone "" with company phone "555-1212" gives "555-1212", and
contact phone "555-0000" with company phone "555-1212" gives "555-0000". -/
theorem C5_field_fallback (c : SourceContact) :
    (∀ p ∈ fallbackPairs,
      (pandadocContactOf c).lookup p.1 =
        if ((contactProperties c).get p.2).truthy then some ((contactProperties c).get p.2)
        else if ((companyData c).get p.2).truthy then some ((companyData c).get p.2)
        else none) ∧
    Obj.get (pandadocContactOf (contactWithPhones "" "555-1212")) "phone" = .str "555-1212" ∧
    Obj.get (pandadocContactOf (contactWithPhones "555-0000" "555-1212")) "phone" =
      .str "555-0000" := by
  refine ⟨?_, rfl, rfl⟩
  intro p hp
  simp only [fallbackPairs, List.mem_cons, List.mem_singleton, List.not_mem_nil, or_false] at hp
  rcases hp with h | h | h | h | h | h <;> subst h <;>
    rw [lookup_pandadocContactOf] <;> exact fallback_chain _ _

/-- C10: the mapped record's company field is the associated company's name when that is
non-empty (truthy), otherwise the contact's own company property when that is non-empty,
otherwise absent; when both are non-empty the company's name is the one sent. -/
theorem C10_company_name_precedence (c : SourceContact) :
    ((pandadocContactOf c).lookup "company" =
      if ((companyData c).get "name").truthy then some ((companyData c).get "name")
      else if ((contactProperties c).get "company").truthy then
        some ((contactProperties c).get "company")
      else none) ∧
    Obj.get (pandadocContactOf contactTwoCompanies) "company" = .str "Acme Inc" := by
  refine ⟨?_, rfl⟩
  rw [lookup_pandadocContactOf]
  exact fallback_chain _ _

/-- C6: the body of the destination create request holds only keys among the eleven
destination fields, every value in it is truthy (so never the empty string), and a
destination field is present exactly when its mapped value after fallback is truthy. -/
theorem C6_body_pruned (env : Remote) (c : SourceContact) (tr : List Call) (body : Obj)
    (h : Call.postContact body ∈ (createOrUpdatePandaDocContact env c tr).2.drop tr.length) :
    (∀ k v, (k, v) ∈ body → k ∈ destinationFields ∧ v.truthy = true) ∧
    (∀ k ∈ destinationFields,
      ((body.lookup k).isSome = true ↔ (Obj.get (pandadocContactLiteral c) k).truthy = true)) := by
  have hbody : body = pandadocContactOf c := by
    rw [history_createOrUpdatePandaDocContact] at h
    split at h
    · simpa using h
    · simp at h
  subst hbody
  constructor
  · intro k v hkv
    unfold pandadocContactOf removeEmptyFields at hkv
    rw [List.mem_filter] at hkv
    refine ⟨?_, by simpa using hkv.2⟩
    rw [← keys_pandadocContactLiteral c]
    exact List.mem_map_of_mem Prod.fst hkv.1
  · intro k _
    rw [lookup_pandadocContactOf]
    unfold Obj.get
    cases hl : (pandadocContactLiteral c).lookup k with
    | none => simp [JVal.truthy]
    | some v =>
      by_cases hv : v.truthy = true
      · simp [hv]
      · simp [hv]

/-- C5 at the contact with phone "" whose company has phone "555-1212". -/
theorem C5_field_fallback_witness :
    ("phone", "phone") ∈ fallbackPairs ∧
    (pandadocContactOf (contactWithPhones "" "555-1212")).lookup "phone" =
      some (.str "555-1212") :=
  ⟨List.Mem.head _,
    (C5_field_fallback (contactWithPhones "" "555-1212")).1 ("phone", "phone") (List.Mem.head _)⟩

/-- C6 at the contact of the end-to-end scenario, with a destination that accepts. -/
theorem C6_body_pruned_witness :
    Call.postContact [("email", .str "a@b.com"), ("first_name", .str "A")] ∈
      (createOrUpdatePandaDocContact envAccept contactA []).2.drop 0 ∧
    ((List.lookup "first_name" [("email", JVal.str "a@b.com"), ("first_name", .str "A")]).isSome
        = true ↔
      (Obj.get (pandadocContactLiteral contactA) "first_name").truthy = true) :=
  ⟨List.Mem.head _,
    (C6_body_pruned envAccept contactA [] [("email", .str "a@b.com"), ("first_name", .str "A")]
      (List.Mem.head _)).2 "first_name" (by decide)⟩


/-! ## The fetcher (C9) -/

theorem firstCompanyId_of_isNullish (env : Remote) (contact : JVal)
    (h : contact.isNullish = true) : ∃ t, firstCompanyId env contact = .error t := by
  unfold firstCompanyId readProperty
  simp [h]

theorem isNullish_of_firstCompanyId_ok (env : Remote) (contact : JVal) (o : Option JVal)
    (h : firstCompanyId env contact = .ok o) : contact.isNullish = false := by
  by_cases hn : contact.isNullish = true
  · obtain ⟨t, ht⟩ := firstCompanyId_of_isNullish env contact hn
    rw [ht] at h
    cases h
  · simpa using hn

theorem ne_null_of_not_isNullish (v : JVal) (h : v.isNullish = false) : v ≠ .null := by
  intro hv
  subst hv
  simp [JVal.isNullish] at h

theorem set_ne_null (v : JVal) (k : String) (x : JVal) (h : v.isNullish = false) :
    v.set k x ≠ .null := by
  cases v <;> simp [JVal.isNullish] at h <;> simp [JVal.set]
  split <;> simp

/-- The write of `associatedCompany` is only reached on an object. -/
theorem isObj_of_firstCompanyId_some (env : Remote) (contact companyId : JVal)
    (h : firstCompanyId env contact = .ok (some companyId)) : ∃ fields, contact = .obj fields := by
  cases contact with
  | obj fields => exact ⟨fields, rfl⟩
  | undefined => simp [firstCompanyId, readProperty, JVal.isNullish] at h
  | null => simp [firstCompanyId, readProperty, JVal.isNullish] at h
  | bool b =>
    simp [firstCompanyId, readProperty, JVal.isNullish, companyAssociationsOf, JVal.get,
      JVal.optGet, JVal.truthy] at h
  | num n =>
    simp [firstCompanyId, readProperty, JVal.isNullish, companyAssociationsOf, JVal.get,
      JVal.optGet, JVal.truthy] at h
  | str s =>
    simp [firstCompanyId, readProperty, JVal.isNullish, companyAssociationsOf, JVal.get,
      JVal.optGet, JVal.truthy] at h
  | arr elems =>
    simp [firstCompanyId, readProperty, JVal.isNullish, companyAssociationsOf, JVal.get,
      JVal.optGet, JVal.truthy] at h

theorem firstCompanyId_no_association (env : Remote) (contact : JVal)
    (hn : contact.isNullish = false)
    (h : companyAssociationsOf contact = .undefined ∨ companyAssociationsOf contact = .arr []) :
    firstCompanyId env contact = .ok none := by
  unfold firstCompanyId readProperty
  rcases h with h | h
  · simp [hn, h, JVal.truthy]
  · simp [hn, h, JVal.truthy, JVal.lengthOf, greaterThanZero]

theorem firstCompanyId_null_association (env : Remote) (contact x : JVal) (rest : List JVal)
    (hn : contact.isNullish = false) (h : companyAssociationsOf contact = .arr (x :: rest))
    (hx : x.isNullish = true) : ∃ t, firstCompanyId env contact = .error t := by
  unfold firstCompanyId readProperty
  have hpos : (0 : Int) < ((rest.length : Int) + 1) := by omega
  simp [hn, h, JVal.truthy, JVal.lengthOf, greaterThanZero, JVal.first, hx, hpos]

theorem firstCompanyId_association (env : Remote) (contact x : JVal) (rest : List JVal)
    (hn : contact.isNullish = false) (h : companyAssociationsOf contact = .arr (x :: rest))
    (hx : x.isNullish = false) (hid : toStringThrows (x.get "id") = false) :
    firstCompanyId env contact = .ok (some (x.get "id")) := by
  unfold firstCompanyId readProperty interpolate
  have hpos : (0 : Int) < ((rest.length : Int) + 1) := by omega
  simp [hn, h, JVal.truthy, JVal.lengthOf, greaterThanZero, JVal.first, hx, hid, hpos]

/-- How `getHubSpotContact` ends, by the outcome of its steps. -/
theorem getHubSpotContact_cases (env : Remote) (contactId : String) (tr : List Call) :
    (∃ r, (getHubSpotContact env contactId tr).1 = .ok r) ∧
    ((getHubSpotContact env contactId tr).1 = .ok .null ↔
      ((∃ e, env.getContact tr contactId = .error e) ∨
        (∃ contact t, env.getContact tr contactId = .ok contact ∧
          firstCompanyId env contact = .error t) ∨
        (∃ contact companyId e, env.getContact tr contactId = .ok contact ∧
          firstCompanyId env contact = .ok (some companyId) ∧
          env.getCompany (tr ++ [.getContact contactId]) companyId = .error e))) ∧
    (∀ contact, env.getContact tr contactId = .ok contact →
      firstCompanyId env contact = .ok none →
      (getHubSpotContact env contactId tr).1 = .ok contact) ∧
    (∀ contact companyId company, env.getContact tr contactId = .ok contact →
      firstCompanyId env contact = .ok (some companyId) →
      env.getCompany (tr ++ [.getContact contactId]) companyId = .ok company →
      (getHubSpotContact env contactId tr).1 = .ok (contact.set "associatedCompany" company)) := by
  unfold getHubSpotContact getHubSpotContactTry
  cases hc : env.getContact tr contactId with
  | error e => simp [tryCatch]
  | ok contact =>
    cases hf : firstCompanyId env contact with
    | error t =>
      simp only [hf, tryCatch]
      refine ⟨⟨_, rfl⟩, ?_, ?_, ?_⟩
      · simp only [true_iff]
        exact Or.inr (Or.inl ⟨contact, t, rfl, hf⟩)
      · intro c1 hc1 hf1
        cases hc1
        rw [hf] at hf1
        cases hf1
      · intro c1 cid co hc1 hf1
        cases hc1
        rw [hf] at hf1
        cases hf1
    | ok o =>
      have hn := isNullish_of_firstCompanyId_ok env contact o hf
      cases o with
      | none =>
        simp only [hf, tryCatch]
        refine ⟨⟨_, rfl⟩, ?_, ?_, ?_⟩
        · constructor
          · intro h
            simp only [Except.ok.injEq] at h
            exact absurd h (ne_null_of_not_isNullish contact hn)
          · rintro (⟨e, he⟩ | ⟨c1, t, hc1, ht⟩ | ⟨c1, cid, e, hc1, hf1, _⟩)
            · cases he
            · cases hc1
              rw [hf] at ht
              cases ht
            · cases hc1
              rw [hf] at hf1
              cases hf1
        · intro c1 hc1 _
          cases hc1
          rfl
        · intro c1 cid co hc1 hf1
          cases hc1
          rw [hf] at hf1
          cases hf1
      | some companyId =>
        cases hg : env.getCompany (tr ++ [.getContact contactId]) companyId with
        | error e =>
          simp only [hf, tryCatch, hg]
          refine ⟨⟨_, rfl⟩, ?_, ?_, ?_⟩
          · simp only [true_iff]
            exact Or.inr (Or.inr ⟨contact, companyId, e, rfl, hf, hg⟩)
          · intro c1 hc1 hf1
            cases hc1
            rw [hf] at hf1
            cases hf1
          · intro c1 cid co hc1 hf1 hg1
            cases hc1
            rw [hf] at hf1
            cases hf1
            rw [hg] at hg1
            cases hg1
        | ok company =>
          simp only [hf, tryCatch, hg]
          refine ⟨⟨_, rfl⟩, ?_, ?_, ?_⟩
          · constructor
            · intro h
              simp only [Except.ok.injEq] at h
              exact absurd h (set_ne_null contact _ company hn)
            · rintro (⟨e, he⟩ | ⟨c1, t, hc1, ht⟩ | ⟨c1, cid, e, hc1, hf1, hg1⟩)
              · cases he
              · cases hc1
                rw [hf] at ht
                cases ht
              · cases hc1
                rw [hf] at hf1
                cases hf1
                rw [hg] at hg1
                cases hg1
          · intro c1 hc1 hf1
            cases hc1
            rw [hf] at hf1
            cases hf1
          · intro c1 cid co hc1 hf1 hg1
            cases hc1
            rw [hf] at hf1
            cases hf1
            rw [hg] at hg1
            cases hg1
            rfl

/-- C9 (the claim as stated fails): when the contact request succeeds with the body
`null`, and when it succeeds with a body whose list of company associations starts with
`null`, `getHubSpotContact` returns `null` although no request failed and no company
request was issued: reading the response throws a `TypeError` inside the `try` block. -/
theorem C9_null_without_failed_request :
    (envWithContact .null).getContact [] "123" = .ok .null ∧
    getHubSpotContact (envWithContact .null) "123" [] = (.ok .null, [.getContact "123"]) ∧
    (envWithContact contactNullAssociation).getContact [] "123" = .ok contactNullAssociation ∧
    getHubSpotContact (envWithContact contactNullAssociation) "123" [] =
      (.ok .null, [.getContact "123"]) := by
  exact ⟨rfl, rfl, rfl, rfl⟩

/-- C9 (amended): `getHubSpotContact` never throws; it returns `null` exactly when the
contact request fails, or reading the response body between the two requests throws, or
the response has at least one company association and the request for the first
association's company fails; in every other case it returns the response body, with the
company attached under `associatedCompany` when there is an association. Reading the
response throws when the body is `undefined` or `null`, and when the first element of
the association list is `undefined` or `null`; a body without association list, or with
an empty one, has no association; a list whose first element is an object has the
association given by that element's `id`. -/
theorem C9_fetcher_absorbs_errors (env : Remote) (contactId : String) (tr : List Call) :
    (∃ r, (getHubSpotContact env contactId tr).1 = .ok r) ∧
    ((getHubSpotContact env contactId tr).1 = .ok .null ↔
      ((∃ e, env.getContact tr contactId = .error e) ∨
        (∃ contact t, env.getContact tr contactId = .ok contact ∧
          firstCompanyId env contact = .error t) ∨
        (∃ contact companyId e, env.getContact tr contactId = .ok contact ∧
          firstCompanyId env contact = .ok (some companyId) ∧
          env.getCompany (tr ++ [.getContact contactId]) companyId = .error e))) ∧
    (∀ contact, env.getContact tr contactId = .ok contact →
      firstCompanyId env contact = .ok none →
      (getHubSpotContact env contactId tr).1 = .ok contact) ∧
    (∀ contact companyId company, env.getContact tr contactId = .ok contact →
      firstCompanyId env contact = .ok (some companyId) →
      env.getCompany (tr ++ [.getContact contactId]) companyId = .ok company →
      (getHubSpotContact env contactId tr).1 =
        .ok (contact.set "associatedCompany" company)) ∧
    (∀ contact : JVal, contact.isNullish = true → ∃ t, firstCompanyId env contact = .error t) ∧
    (∀ (contact x : JVal) (rest : List JVal), contact.isNullish = false →
      companyAssociationsOf contact = .arr (x :: rest) → x.isNullish = true →
      ∃ t, firstCompanyId env contact = .error t) ∧
    (∀ contact : JVal, contact.isNullish = false →
      (companyAssociationsOf contact = .undefined ∨ companyAssociationsOf contact = .arr []) →
      firstCompanyId env contact = .ok none) ∧
    (∀ (contact x : JVal) (rest : List JVal), contact.isNullish = false →
      companyAssociationsOf contact = .arr (x :: rest) → x.isNullish = false →
      toStringThrows (x.get "id") = false →
      firstCompanyId env contact = .ok (some (x.get "id"))) := by
  have h := getHubSpotContact_cases env contactId tr
  exact ⟨h.1, h.2.1, h.2.2.1, h.2.2.2, firstCompanyId_of_isNullish env,
    firstCompanyId_null_association env, firstCompanyId_no_association env,
    firstCompanyId_association env⟩

/-- C9 at contact 123 when it is associated with company 9: the company is fetched and
attached to the returned record. -/
theorem C9_fetcher_absorbs_errors_witness :
    (envWithContact contactOfCompany9).getContact [] "123" = .ok contactOfCompany9 ∧
    firstCompanyId (envWithContact contactOfCompany9) contactOfCompany9 =
      .ok (some (.str "9")) ∧
    (getHubSpotContact (envWithContact contactOfCompany9) "123" []).1 =
      .ok (contactOfCompany9.set "associatedCompany"
        (.obj [("properties", .obj [("name", .str "Acme Inc")])])) :=
  ⟨rfl, rfl,
    (C9_fetcher_absorbs_errors (envWithContact contactOfCompany9) "123" []).2.2.2.1
      contactOfCompany9 (.str "9") _ rfl rfl rfl⟩


/-! ## The webhook handler (C7, C8) -/

/-- The history `getHubSpotContact` leaves: the contact request, then at most one
company request. -/
theorem history_getHubSpotContact (env : Remote) (contactId : String) (tr : List Call) :
    ∃ new, (getHubSpotContact env contactId tr).2 = tr ++ new ∧
      fetchedContactIds new = [contactId] := by
  unfold getHubSpotContact getHubSpotContactTry
  cases hc : env.getContact tr contactId with
  | error e => exact ⟨[.getContact contactId], rfl, rfl⟩
  | ok contact =>
    cases hf : firstCompanyId env contact with
    | error t => exact ⟨[.getContact contactId], by simp [hf, tryCatch], rfl⟩
    | ok o =>
      cases o with
      | none => exact ⟨[.getContact contactId], by simp [hf, tryCatch], rfl⟩
      | some companyId =>
        cases hg : env.getCompany (tr ++ [.getContact contactId]) companyId with
        | error e =>
          exact ⟨[.getContact contactId, .getCompany companyId], by simp [hf, tryCatch, hg], rfl⟩
        | ok company =>
          exact ⟨[.getContact contactId, .getCompany companyId], by simp [hf, tryCatch, hg], rfl⟩

theorem fetchedContactIds_append (a b : List Call) :
    fetchedContactIds (a ++ b) = fetchedContactIds a ++ fetchedContactIds b := by
  simp [fetchedContactIds, List.filterMap_append]

/-- The upserter adds no contact request to the history. -/
theorem posted_createOrUpdatePandaDocContact (env : Remote) (c : SourceContact)
    (tr : List Call) :
    ∃ posted, (createOrUpdatePandaDocContact env c tr).2 = tr ++ posted ∧
      fetchedContactIds posted = [] := by
  rw [history_createOrUpdatePandaDocContact]
  refine ⟨_, rfl, ?_⟩
  split <;> rfl

/-- One iteration of the loop that completes: what it adds to the count and to the
history. -/
theorem processEvent_ok (env : Remote) (event : Event) (n n1 : Nat) (tr tr1 : List Call)
    (h : processEvent env event n tr = (.ok n1, tr1)) :
    n1 = n + (if fetchReturnsContact env event tr = true then 1 else 0) ∧
    ∃ new, tr1 = tr ++ new ∧
      fetchedContactIds new = if isContactEvent event = true then [event.objectId] else [] := by
  unfold processEvent at h
  unfold fetchReturnsContact
  by_cases he : isContactEvent event = true
  · simp only [he, if_true] at h
    obtain ⟨new, hnew, hids⟩ := history_getHubSpotContact env event.objectId tr
    cases hr : getHubSpotContact env event.objectId tr with
    | mk r t =>
      rw [hr] at h hnew
      simp only at hnew
      cases r with
      | error e => simp at h
      | ok contactData =>
        simp only at h
        by_cases hv : contactData.truthy = true
        · simp only [hv, if_true] at h
          obtain ⟨posted, hu, hposted⟩ := posted_createOrUpdatePandaDocContact env contactData t
          cases hcu : createOrUpdatePandaDocContact env contactData t with
          | mk r2 t2 =>
            rw [hcu] at h hu
            simp only at hu
            cases r2 with
            | error e => simp at h
            | ok v =>
              simp only [Prod.mk.injEq, Except.ok.injEq] at h
              refine ⟨by simp [he, hv, h.1.symm], new ++ posted, ?_, ?_⟩
              · rw [← h.2, hu, hnew, List.append_assoc]
              · rw [fetchedContactIds_append, hids, hposted]
                simp [he]
        · simp only [hv, Bool.false_eq_true, if_false, Prod.mk.injEq, Except.ok.injEq] at h
          refine ⟨by simp [he, hv, h.1.symm], new, by rw [← h.2, hnew], by simp [he, hids]⟩
  · simp only [he, Bool.false_eq_true, if_false, Prod.mk.injEq, Except.ok.injEq] at h
    exact ⟨by simp [he, h.1.symm], [], by simp [h.2], by simp [he, fetchedContactIds]⟩

/-- The count passed to an iteration changes neither its history nor whether it throws. -/
theorem processEvent_count (env : Remote) (event : Event) (n m : Nat) (tr : List Call) :
    (∃ x t, processEvent env event n tr = (.error x, t) ∧
      processEvent env event m tr = (.error x, t)) ∨
    (∃ k t, processEvent env event n tr = (.ok (n + k), t) ∧
      processEvent env event m tr = (.ok (m + k), t)) := by
  unfold processEvent
  by_cases he : isContactEvent event = true
  · simp only [he, if_true]
    cases hr : getHubSpotContact env event.objectId tr with
    | mk r t =>
      cases r with
      | error e => exact Or.inl ⟨e, t, rfl, rfl⟩
      | ok contactData =>
        simp only
        by_cases hv : contactData.truthy = true
        · simp only [hv, if_true]
          cases hcu : createOrUpdatePandaDocContact env contactData t with
          | mk r2 t2 =>
            cases r2 with
            | error e => exact Or.inl ⟨e, t2, rfl, rfl⟩
            | ok v => exact Or.inr ⟨1, t2, rfl, rfl⟩
        · simp only [hv, Bool.false_eq_true, if_false]
          exact Or.inr ⟨0, t, rfl, rfl⟩
  · simp only [he, Bool.false_eq_true, if_false]
    exact Or.inr ⟨0, tr, rfl, rfl⟩

theorem processEvents_cons (env : Remote) (e : Event) (es : List Event) (n : Nat)
    (tr : List Call) :
    processEvents env (e :: es) n tr =
      match processEvent env e n tr with
      | (.error x, tr1) => (.error x, tr1)
      | (.ok n1, tr1) => processEvents env es n1 tr1 := by
  rw [processEvents]

theorem processEvents_history_count (env : Remote) (events : List Event) :
    ∀ (n m : Nat) (tr : List Call),
      (processEvents env events n tr).2 = (processEvents env events m tr).2 := by
  induction events with
  | nil => intro n m tr; rfl
  | cons e es ih =>
    intro n m tr
    rw [processEvents_cons, processEvents_cons]
    rcases processEvent_count env e n m tr with ⟨x, t, h1, h2⟩ | ⟨k, t, h1, h2⟩
    · rw [h1, h2]
    · rw [h1, h2]
      exact ih _ _ t

theorem historyAt_zero (env : Remote) (events : List Event) (tr : List Call) :
    historyAt env events tr 0 = tr := by
  simp [historyAt, processEvents]

theorem historyAt_succ (env : Remote) (e : Event) (es : List Event) (n n1 : Nat)
    (tr tr1 : List Call) (h : processEvent env e n tr = (.ok n1, tr1)) (i : Nat) :
    historyAt env (e :: es) tr (i + 1) = historyAt env es tr1 i := by
  unfold historyAt
  rw [List.take_succ_cons, processEvents_cons]
  rcases processEvent_count env e n 0 tr with ⟨x, t, h1, h2⟩ | ⟨k, t, h1, h2⟩
  · rw [h] at h1
    cases h1
  · rw [h] at h1
    cases h1
    rw [h2]
    exact processEvents_history_count env _ _ _ _

/-- The number of events of the batch that are of a handled type and for which the
fetcher returned a contact when the loop reached them. -/
theorem processEvents_ok_count (env : Remote) (events : List Event) :
    ∀ (n m : Nat) (tr tr1 : List Call), processEvents env events n tr = (.ok m, tr1) →
      m = n + ((List.range events.length).filter (fun i =>
        match events[i]? with
        | some event => fetchReturnsContact env event (historyAt env events tr i)
        | none => false)).length := by
  induction events with
  | nil =>
    intro n m tr tr1 h
    simp [processEvents] at h
    simp [h.1]
  | cons e es ih =>
    intro n m tr tr1 h
    rw [processEvents_cons] at h
    cases hstep : processEvent env e n tr with
    | mk r t =>
      rw [hstep] at h
      cases r with
      | error x => simp at h
      | ok n1 =>
        simp only at h
        have h1 := (processEvent_ok env e n n1 tr t hstep).1
        have h2 := ih n1 m t tr1 h
        rw [h2, h1, List.length_cons, List.range_succ_eq_map, List.filter_cons, List.filter_map]
        have hcongr : (List.range es.length).filter ((fun i =>
              match (e :: es)[i]? with
              | some event => fetchReturnsContact env event (historyAt env (e :: es) tr i)
              | none => false) ∘ Nat.succ) =
            (List.range es.length).filter (fun i =>
              match es[i]? with
              | some event => fetchReturnsContact env event (historyAt env es t i)
              | none => false) := by
          apply List.filter_congr
          intro i _
          simp only [Function.comp, Nat.succ_eq_add_one, List.getElem?_cons_succ]
          rw [historyAt_succ env e es n n1 tr t hstep i]
        rw [hcongr]
        simp only [List.getElem?_cons_zero, historyAt_zero]
        by_cases hf : fetchReturnsContact env e tr = true
        · simp only [hf, if_true, List.length_cons, List.length_map]
          omega
        · simp only [hf, Bool.false_eq_true, if_false, List.length_map]
          omega

/-- A loop that completes has fetched exactly the handled events, in order. -/
theorem processEvents_ok_history (env : Remote) (events : List Event) :
    ∀ (n m : Nat) (tr tr1 : List Call), processEvents env events n tr = (.ok m, tr1) →
      ∃ new, tr1 = tr ++ new ∧
        fetchedContactIds new = (events.filter isContactEvent).map Event.objectId := by
  induction events with
  | nil =>
    intro n m tr tr1 h
    simp [processEvents] at h
    exact ⟨[], by simp [h.2], rfl⟩
  | cons e es ih =>
    intro n m tr tr1 h
    rw [processEvents_cons] at h
    cases hstep : processEvent env e n tr with
    | mk r t =>
      rw [hstep] at h
      cases r with
      | error x => simp at h
      | ok n1 =>
        simp only at h
        obtain ⟨new1, ht, hids1⟩ := (processEvent_ok env e n n1 tr t hstep).2
        obtain ⟨new2, ht1, hids2⟩ := ih n1 m t tr1 h
        refine ⟨new1 ++ new2, by rw [ht1, ht, List.append_assoc], ?_⟩
        rw [fetchedContactIds_append, hids1, hids2]
        by_cases he : isContactEvent e = true
        · simp [he, List.filter_cons]
        · simp [he, List.filter_cons]

theorem hubspotWebhook_ok (env : Remote) (body : Body) (tr : List Call) (message : String)
    (n : Nat) (h : (hubspotWebhook env body tr).1 = .ok200 message n) :
    processEvents env (normaliseEvents body) 0 tr = (.ok n, (hubspotWebhook env body tr).2) := by
  unfold hubspotWebhook at h ⊢
  cases hp : processEvents env (normaliseEvents body) 0 tr with
  | mk r t =>
    rw [hp] at h
    cases r with
    | error x => simp at h
    | ok k =>
      simp only [HttpResponse.ok200.injEq] at h
      simp [h.2]

/-- C7: when the handler responds 200, `processedEvents` is the number of events of the
normalised event list that are `contact.creation` or `contact.propertyChange` events and
for which the fetcher returned a contact (not `null`) when the loop reached them; what
the upserter then did does not enter the count. A single event object is handled as the
array holding it; an event whose contact has no email, and one whose create request
fails with status 500, are both counted, and one whose fetch fails is not. -/
theorem C7_processed_count (env : Remote) (body : Body) (tr : List Call) (message : String)
    (n : Nat) (h : (hubspotWebhook env body tr).1 = .ok200 message n) :
    n = ((List.range (normaliseEvents body).length).filter (fun i =>
        match (normaliseEvents body)[i]? with
        | some event => fetchReturnsContact env event (historyAt env (normaliseEvents body) tr i)
        | none => false)).length ∧
    (∀ event, hubspotWebhook env (.single event) tr = hubspotWebhook env (.array [event]) tr) ∧
    hubspotWebhook envNoEmail (.single eventCreation) [] =
      (.ok200 "Webhook processed successfully" 1, [.getContact "123"]) ∧
    (hubspotWebhook envServerError (.single eventCreation) []).1 =
      .ok200 "Webhook processed successfully" 1 ∧
    hubspotWebhook envNotFound (.single eventCreation) [] =
      (.ok200 "Webhook processed successfully" 0, [.getContact "123"]) := by
  refine ⟨?_, fun _ => rfl, rfl, rfl, rfl⟩
  have h1 := processEvents_ok_count env (normaliseEvents body) 0 n tr _
    (hubspotWebhook_ok env body tr message n h)
  simpa using h1

/-- C7 at the batch of one contact event and one event of another type. -/
theorem C7_processed_count_witness :
    (hubspotWebhook envAccept (.array [eventCreation, eventOther]) []).1 =
      .ok200 "Webhook processed successfully" 1 ∧
    1 = ((List.range (normaliseEvents (.array [eventCreation, eventOther])).length).filter
      (fun i =>
        match (normaliseEvents (.array [eventCreation, eventOther]))[i]? with
        | some event => fetchReturnsContact envAccept event
            (historyAt envAccept (normaliseEvents (.array [eventCreation, eventOther])) [] i)
        | none => false)).length :=
  ⟨rfl, (C7_processed_count envAccept (.array [eventCreation, eventOther]) []
    "Webhook processed successfully" 1 rfl).1⟩

/-- C8: when the handler responds 200, the contact-fetch calls it issued are exactly the
`objectId`s of the `contact.creation` and `contact.propertyChange` events, in payload
order; an event of any other or missing type issues no remote call and leaves the count
unchanged. A batch of one `contact.creation` event and one event of another type yields
one fetch call and `processedEvents` 1. -/
theorem C8_fetch_calls_in_order (env : Remote) (body : Body) (tr : List Call)
    (message : String) (n : Nat) (h : (hubspotWebhook env body tr).1 = .ok200 message n) :
    fetchedContactIds ((hubspotWebhook env body tr).2.drop tr.length) =
      ((normaliseEvents body).filter isContactEvent).map Event.objectId ∧
    (∀ event k t, isContactEvent event = false → processEvent env event k t = (.ok k, t)) ∧
    hubspotWebhook envAccept (.array [eventCreation, eventOther]) [] =
      (.ok200 "Webhook processed successfully" 1,
        [.getContact "123",
          .postContact [("email", .str "a@b.com"), ("first_name", .str "A")]]) := by
  refine ⟨?_, ?_, rfl⟩
  · obtain ⟨new, hnew, hids⟩ := processEvents_ok_history env (normaliseEvents body) 0 n tr _
      (hubspotWebhook_ok env body tr message n h)
    rw [hnew, List.drop_left, hids]
  · intro event k t he
    simp [processEvent, he]

/-- C8 at the batch of an unhandled event, a `contact.propertyChange` event and a
`contact.creation` event. -/
theorem C8_fetch_calls_in_order_witness :
    (hubspotWebhook envAccept (.array [eventOther, eventChange, eventCreation]) []).1 =
      .ok200 "Webhook processed successfully" 2 ∧
    fetchedContactIds
        ((hubspotWebhook envAccept (.array [eventOther, eventChange, eventCreation]) []).2.drop
          ([] : List Call).length) =
      ((normaliseEvents (.array [eventOther, eventChange, eventCreation])).filter
        isContactEvent).map Event.objectId :=
  ⟨rfl, (C8_fetch_calls_in_order envAccept (.array [eventOther, eventChange, eventCreation]) []
    "Webhook processed successfully" 2 rfl).1⟩

end HubspotPandadocSync
